import Mathlib

/-!
Shallow embedding of `app4.py` — a memory-augmented two-stage chat pipeline.

The embedded core covers:
* `retrieve_memory_node` (source lines 128–150): normalization of heterogeneous
  store search results into a single text blob, with the sentinel fallback;
* `prompt_guidance_node` (lines 153–174): the planning stage (LLM2, temperature 0.3);
* `chat_by_llm1_node` (lines 177–210): the generation stage (LLM1, temperature 0.7)
  with synchronous persistence of the turn;
* `build_graph` (lines 213–223): the linear LangGraph wiring;
* the chat input handler (lines 236–253): try/except around `graph.invoke`,
  fallback reply substitution, and the thought-process display step.

Python dynamic values are modelled by `PyVal`; Python exceptions by `PyExn`;
external effects (store search/create, the completion provider) are injected
through an `Env` record, so each run is a pure function of the environment.
-/

set_option autoImplicit false

namespace Hibiki

/-- Dynamic Python values, as far as the retrieval normalization inspects them:
`None`, ints, strings, lists and string-keyed dicts. -/
inductive PyVal where
  | none : PyVal
  | int : Int → PyVal
  | str : String → PyVal
  | list : List PyVal → PyVal
  | dict : List (String × PyVal) → PyVal

/-- Python exceptions that the embedded code can raise or propagate. -/
inductive PyExn where
  | typeError
  | keyError
  | storeUnavailable
  | providerFailure
  | nameError
deriving DecidableEq, Repr

mutual
/-- Python `repr` of a value (used by `str` on containers). -/
def pyRepr : PyVal → String
  | PyVal.none => "None"
  | PyVal.int i => toString i
  | PyVal.str s => "\x27" ++ s ++ "\x27"
  | PyVal.list l => "[" ++ pyReprList l ++ "]"
  | PyVal.dict d => "\x7b" ++ pyReprDict d ++ "\x7d"

/-- Comma-separated reprs of the elements of a Python list. -/
def pyReprList : List PyVal → String
  | [] => ""
  | [v] => pyRepr v
  | v :: vs => pyRepr v ++ ", " ++ pyReprList vs

/-- Comma-separated `key: value` reprs of the entries of a Python dict. -/
def pyReprDict : List (String × PyVal) → String
  | [] => ""
  | [(k, v)] => "\x27" ++ k ++ "\x27: " ++ pyRepr v
  | (k, v) :: kvs => "\x27" ++ k ++ "\x27: " ++ pyRepr v ++ ", " ++ pyReprDict kvs
end

/-- Python `str(r)`: identity on strings, `repr` on everything else. -/
def pyStr : PyVal → String
  | PyVal.str s => s
  | v => pyRepr v

/-- Is `needle` a prefix of the character list? -/
def charsPrefix : List Char → List Char → Bool
  | [], _ => true
  | _ :: _, [] => false
  | a :: as, b :: bs => a == b && charsPrefix as bs

/-- Does `needle` occur as a contiguous sublist? -/
def charsSub (needle : List Char) : List Char → Bool
  | [] => charsPrefix needle []
  | c :: cs => charsPrefix needle (c :: cs) || charsSub needle cs

/-- Python substring test `needle in s` for strings. -/
def pyInString (needle s : String) : Bool :=
  charsSub needle.data s.data

/-- Lookup in the association-list representation of a Python dict. -/
def dictGet (d : List (String × PyVal)) (k : String) : Option PyVal :=
  (d.find? (fun p => p.1 == k)).map (fun p => p.2)

/-- Python membership `needle in v` for a string needle: key membership for
dicts, substring test for strings, element equality for lists, `TypeError`
for ints and `None`. -/
def pyContains (needle : String) : PyVal → Except PyExn Bool
  | PyVal.dict d => Except.ok ((dictGet d needle).isSome)
  | PyVal.str s => Except.ok (pyInString needle s)
  | PyVal.list l =>
      Except.ok (l.any (fun v => match v with
        | PyVal.str s => s == needle
        | _ => false))
  | PyVal.int _ => Except.error PyExn.typeError
  | PyVal.none => Except.error PyExn.typeError

/-- Python subscript `v[k]` with a string key: dict lookup (`KeyError` when
the key is absent), `TypeError` on any non-dict. -/
def pySubscript : PyVal → String → Except PyExn PyVal
  | PyVal.dict d, k =>
      match dictGet d k with
      | some v => Except.ok v
      | Option.none => Except.error PyExn.keyError
  | PyVal.str _, _ => Except.error PyExn.typeError
  | PyVal.list _, _ => Except.error PyExn.typeError
  | PyVal.int _, _ => Except.error PyExn.typeError
  | PyVal.none, _ => Except.error PyExn.typeError

/-- The comprehension filter of source line 141:
`isinstance(r, dict) and "value" in r and "content" in r["value"]`
(short-circuit left to right; the last conjunct may raise `TypeError`). -/
def filterCond (r : PyVal) : Except PyExn Bool :=
  match r with
  | PyVal.dict d =>
      match dictGet d "value" with
      | some v => pyContains "content" v
      | Option.none => Except.ok false
  | _ => Except.ok false

/-- One step of the comprehension of line 141: evaluate the filter; when it
holds, evaluate `r["value"]["content"]` (which can still raise `TypeError`
when `r["value"]` is not a dict). Items failing the filter are skipped. -/
def extractOne (r : PyVal) : Except PyExn (Option PyVal) :=
  match filterCond r with
  | Except.error e => Except.error e
  | Except.ok false => Except.ok Option.none
  | Except.ok true =>
      match pySubscript r "value" with
      | Except.error e => Except.error e
      | Except.ok v =>
          match pySubscript v "content" with
          | Except.error e => Except.error e
          | Except.ok c => Except.ok (some c)

/-- The whole comprehension `[r["value"]["content"] for r in search_results if ...]`,
left to right, aborting at the first raised exception. -/
def extractAll : List PyVal → Except PyExn (List PyVal)
  | [] => Except.ok []
  | r :: rs =>
      match extractOne r with
      | Except.error e => Except.error e
      | Except.ok o =>
          match extractAll rs with
          | Except.error e => Except.error e
          | Except.ok rest =>
              match o with
              | some c => Except.ok (c :: rest)
              | Option.none => Except.ok rest

/-- `"\n".join(vs)`: every element must be a Python string, else `TypeError`. -/
def asStrList : List PyVal → Except PyExn (List String)
  | [] => Except.ok []
  | PyVal.str s :: vs =>
      match asStrList vs with
      | Except.error e => Except.error e
      | Except.ok rest => Except.ok (s :: rest)
  | _ :: _ => Except.error PyExn.typeError

/-- The `try` body of lines 140–141: extract the nested content fields and
join them with newlines. -/
def extractJoined (srs : List PyVal) : Except PyExn String :=
  match extractAll srs with
  | Except.error e => Except.error e
  | Except.ok vs =>
      match asStrList vs with
      | Except.error e => Except.error e
      | Except.ok ss => Except.ok (String.intercalate "\n" ss)

/-- `memory_text` as computed by lines 137–144: empty for an empty (falsy)
result list; otherwise the joined extraction, falling back to stringifying
every item of the batch when the extraction raises `TypeError`/`KeyError`. -/
def memoryTextOf (srs : List PyVal) : String :=
  if srs.isEmpty then ""
  else
    match extractJoined srs with
    | Except.ok s => s
    | Except.error _ => String.intercalate "\n" (srs.map pyStr)

/-- The sentinel of line 148, substituted when `memory_text` is falsy. -/
def sentinel : String := "関連する記憶はありません。"

/-- `memory_text if memory_text else "関連する記憶はありません。"` (line 148). -/
def normalizedMemory (srs : List PyVal) : String :=
  if memoryTextOf srs = "" then sentinel else memoryTextOf srs

example : memoryTextOf [PyVal.str "User loves jazz"] = "" := rfl

example :
    memoryTextOf [PyVal.dict [("value", PyVal.dict [("content", PyVal.str "User loves jazz")])]]
      = "User loves jazz" := rfl

example : memoryTextOf [PyVal.dict [("value", PyVal.int 5)]] = "\x7b\x27value\x27: 5\x7d" := rfl

/-- A `ChatOpenAI` handle as constructed in the source: a model name and a
sampling temperature (the float literals 0.3 and 0.7, embedded exactly as
rationals). -/
structure ChatOpenAI where
  model : String
  temperature : ℚ
deriving DecidableEq

/-- `ChatOpenAI(model="gpt-4o", temperature=0.3)` of line 168 (the planner). -/
def llm2 : ChatOpenAI := { model := "gpt-4o", temperature := 3/10 }

/-- `ChatOpenAI(model="gpt-4o", temperature=0.7)` of line 197 (the responder). -/
def llm1 : ChatOpenAI := { model := "gpt-4o", temperature := 7/10 }

/-- The external world of one run: the store's search and create operations
and the completion provider, each of which may raise. -/
structure Env where
  search : String → Except PyExn (List PyVal)
  complete : ChatOpenAI → String → Except PyExn String
  create : String → Except PyExn Unit

/-- The LangGraph state dict. Each field is `Option`-valued: `none` models a
key that is absent from the dict (LangGraph merges node outputs key-wise). -/
structure GraphState where
  input : Option String
  retrieved_memory : Option String
  llm1_prompt_instructions : Option String
  response : Option String
deriving DecidableEq, Repr

/-- Key-wise merge of a node's returned update into the running state:
keys present in the update overwrite, absent keys persist. -/
def applyUpdate (s u : GraphState) : GraphState :=
  { input := match u.input with | some v => some v | Option.none => s.input,
    retrieved_memory :=
      match u.retrieved_memory with | some v => some v | Option.none => s.retrieved_memory,
    llm1_prompt_instructions :=
      match u.llm1_prompt_instructions with
      | some v => some v
      | Option.none => s.llm1_prompt_instructions,
    response := match u.response with | some v => some v | Option.none => s.response }

/-- The planning prompt of lines 154–167 (an f-string over the state's
`input` and `retrieved_memory`). -/
def guidancePrompt (input retrieved : String) : String :=
  "\nユーザーの発言と記憶をもとに、ひびき（あなた）がユーザーにどのように語りかけ、何を参考にし、LLM1へどのような指示を出すかを考えてください。\n\n### ユーザーの発言:\n"
    ++ input
    ++ "\n\n### 関連する記憶:\n"
    ++ retrieved
    ++ "\n\n### 出力フォーマット:\n1. ユーザーへの語りかけスタイル（例：優しく、元気よく、共感的に）\n2. 参考にする過去記憶（要約、または「なし」）\n3. LLM1への指示（具体的な応答生成の指針）\n"

/-- The generation prompt of lines 178–196 (persona text plus the three
upstream inputs, in source order: instructions, memory, user input). -/
def llm1Prompt (instructions retrieved input : String) : String :=
  "\nあなたは「ひびき」という名前のAIです。以下の人格を一貫して保ってください：\n- 優しく、思いやりのある語り口\n- ユーザーの気分や好みを覚えて、自然に会話に活かす\n- 過去の話題をそっと引き出して繋げる\n- 不安や悩みに寄り添う\n- 無理に励まさず、今に合わせて話す\n\n### 指示:\n"
    ++ instructions
    ++ "\n\n### 記憶:\n"
    ++ retrieved
    ++ "\n\n### ユーザーの発言:\n"
    ++ input
    ++ "\n\n### ひびきの応答:\n"

/-- The stored-turn template of line 203: `"ユーザー: {input}\nひびき: {response}"`. -/
def storedTurn (input response : String) : String :=
  "ユーザー: " ++ input ++ "\nひびき: " ++ response

/-- Node 1 (lines 128–150): read `state["input"]` (a missing key is a
`KeyError`), call the store's search with it, normalize the results, and
return the update dict of lines 146–150. -/
def retrieve_memory_node (env : Env) (state : GraphState) : Except PyExn GraphState :=
  match state.input with
  | Option.none => Except.error PyExn.keyError
  | some user_input =>
      match env.search user_input with
      | Except.error e => Except.error e
      | Except.ok search_results =>
          Except.ok
            { input := some user_input,
              retrieved_memory := some (normalizedMemory search_results),
              llm1_prompt_instructions := some "",
              response := Option.none }

/-- Node 2 (lines 153–174): build the guidance prompt from `state["input"]`
and `state["retrieved_memory"]`, invoke LLM2, and return the raw completion
as `llm1_prompt_instructions` (lines 170–174). -/
def prompt_guidance_node (env : Env) (state : GraphState) : Except PyExn GraphState :=
  match state.input with
  | Option.none => Except.error PyExn.keyError
  | some inp =>
      match state.retrieved_memory with
      | Option.none => Except.error PyExn.keyError
      | some mem =>
          match env.complete llm2 (guidancePrompt inp mem) with
          | Except.error e => Except.error e
          | Except.ok resp =>
              Except.ok
                { input := some inp,
                  retrieved_memory := some mem,
                  llm1_prompt_instructions := some resp,
                  response := Option.none }

/-- Node 3 (lines 177–210): build the persona prompt, invoke LLM1, then
synchronously `create` the stored turn (line 202, unguarded — a create
failure raises out of the node), and return the update of lines 207–210.
The second component records the successfully written stored turns. -/
def chat_by_llm1_node (env : Env) (state : GraphState) :
    Except PyExn GraphState × List String :=
  match state.llm1_prompt_instructions with
  | Option.none => (Except.error PyExn.keyError, [])
  | some instr =>
      match state.retrieved_memory with
      | Option.none => (Except.error PyExn.keyError, [])
      | some mem =>
          match state.input with
          | Option.none => (Except.error PyExn.keyError, [])
          | some inp =>
              match env.complete llm1 (llm1Prompt instr mem inp) with
              | Except.error e => (Except.error e, [])
              | Except.ok respContent =>
                  match env.create (storedTurn inp respContent) with
                  | Except.error e => (Except.error e, [])
                  | Except.ok _ =>
                      (Except.ok
                        { input := Option.none,
                          retrieved_memory := Option.none,
                          llm1_prompt_instructions := some instr,
                          response := some respContent },
                       [storedTurn inp respContent])

/-- The edges added by `build_graph` (lines 220–222), `END` included. -/
def graphEdges : List (String × String) :=
  [("retrieve_memory", "prompt_guidance"),
   ("prompt_guidance", "chat_by_llm1"),
   ("chat_by_llm1", "END")]

/-- The entry point set on line 219. -/
def entryPoint : String := "retrieve_memory"

/-- Follow the (functional) edge relation from a node, collecting the nodes
visited before `END`; fuelled to stay structurally terminating. -/
def followEdges : Nat → String → List String
  | 0, _ => []
  | Nat.succ n, cur =>
      if cur = "END" then []
      else
        cur ::
          (match (graphEdges.find? (fun e => e.1 == cur)).map (fun e => e.2) with
           | some nxt => followEdges n nxt
           | Option.none => [])

/-- The node execution order of the compiled graph, derived from the entry
point and the edge list. -/
def executionOrder : List String := followEdges (graphEdges.length + 1) entryPoint

/-- The empty update (a node that returns no keys). -/
def emptyUpdate : GraphState :=
  { input := Option.none, retrieved_memory := Option.none,
    llm1_prompt_instructions := Option.none, response := Option.none }

/-- Dispatch one node by its registered name (lines 216–218). -/
def runNode (env : Env) (name : String) (state : GraphState) :
    Except PyExn GraphState × List String :=
  match name with
  | "retrieve_memory" => (retrieve_memory_node env state, [])
  | "prompt_guidance" => (prompt_guidance_node env state, [])
  | "chat_by_llm1" => chat_by_llm1_node env state
  | _ => (Except.ok emptyUpdate, [])

/-- Run a list of nodes in order, merging each returned update into the
state; the first raised exception aborts the run. Also accumulates the
stored turns written along the way. -/
def runNodes (env : Env) : List String → GraphState → Except PyExn GraphState × List String
  | [], s => (Except.ok s, [])
  | n :: ns, s =>
      match runNode env n s with
      | (Except.error e, w) => (Except.error e, w)
      | (Except.ok u, w) =>
          match runNodes env ns (applyUpdate s u) with
          | (res, ws) => (res, w ++ ws)

/-- The initial state of a run: `graph.invoke({"input": user_input})` (line 242). -/
def initState (inp : String) : GraphState :=
  { input := some inp, retrieved_memory := Option.none,
    llm1_prompt_instructions := Option.none, response := Option.none }

/-- `graph.invoke`: run the nodes in the order derived from the graph wiring. -/
def graphInvoke (env : Env) (init : GraphState) : Except PyExn GraphState × List String :=
  runNodes env executionOrder init

/-- The fallback apology of line 246. -/
def fallbackMessage : String :=
  "ごめんなさい、うまく考えられなかったみたいです。もう一度試してもらえますか？"

/-- The observable outcome of one chat turn (lines 236–253): the reply
surfaced to the user (appended and rendered on lines 248–249), the stored
turns written, what the thought-process expander displays, and whether the
handler itself faults after surfacing the reply. -/
structure TurnOutcome where
  reply : String
  writes : List String
  displayedInstructions : Option String
  handlerFault : Option PyExn
deriving DecidableEq, Repr

/-- The chat input handler (lines 240–253). Inside `try`, `result` is bound
and `reply = result["response"]`; on any exception the fallback reply is
substituted, and `result` stays unbound — so the display step
`result.get("llm1_prompt_instructions", "なし")` on line 253 then raises
`NameError` (after the reply was already surfaced on lines 248–249). -/
def handle_user_input (env : Env) (user_input : String) : TurnOutcome :=
  let r := graphInvoke env (initState user_input)
  match r.1 with
  | Except.ok result =>
      match result.response with
      | some rep =>
          { reply := rep, writes := r.2,
            displayedInstructions := some (result.llm1_prompt_instructions.getD "なし"),
            handlerFault := Option.none }
      | Option.none =>
          { reply := fallbackMessage, writes := r.2,
            displayedInstructions := some (result.llm1_prompt_instructions.getD "なし"),
            handlerFault := Option.none }
  | Except.error _ =>
      { reply := fallbackMessage, writes := r.2,
        displayedInstructions := Option.none,
        handlerFault := some PyExn.nameError }

example : executionOrder = ["retrieve_memory", "prompt_guidance", "chat_by_llm1"] := rfl

/-- The state observed by the planning stage: the initial state with the
retrieval stage's update merged in. -/
def stateAfterRetrieval (env : Env) (inp : String) : Except PyExn GraphState :=
  match retrieve_memory_node env (initState inp) with
  | Except.error e => Except.error e
  | Except.ok u => Except.ok (applyUpdate (initState inp) u)

/-- Modelled from the spec's words (§4.4): the unconditional linear pipeline
retrieval → planning → generation, each stage's merged output feeding the
next, failure anywhere aborting the run. Used to state that the compiled
graph refines exactly this sequence. -/
def spec_linear_pipeline (env : Env) (init : GraphState) :
    Except PyExn GraphState × List String :=
  match retrieve_memory_node env init with
  | Except.error e => (Except.error e, [])
  | Except.ok u1 =>
      match prompt_guidance_node env (applyUpdate init u1) with
      | Except.error e => (Except.error e, [])
      | Except.ok u2 =>
          match chat_by_llm1_node env (applyUpdate (applyUpdate init u1) u2) with
          | (Except.error e, w) => (Except.error e, w)
          | (Except.ok u3, w) =>
              (Except.ok (applyUpdate (applyUpdate (applyUpdate init u1) u2) u3), w)

theorem runNode_retrieve (env : Env) (s : GraphState) :
    runNode env "retrieve_memory" s = (retrieve_memory_node env s, []) := rfl

theorem runNode_guidance (env : Env) (s : GraphState) :
    runNode env "prompt_guidance" s = (prompt_guidance_node env s, []) := rfl

theorem runNode_chat (env : Env) (s : GraphState) :
    runNode env "chat_by_llm1" s = chat_by_llm1_node env s := rfl

theorem graphInvoke_eq_linear (env : Env) (init : GraphState) :
    graphInvoke env init = spec_linear_pipeline env init := by
  show runNodes env executionOrder init = _
  have hord : executionOrder = ["retrieve_memory", "prompt_guidance", "chat_by_llm1"] := rfl
  rw [hord]
  simp only [runNodes, runNode_retrieve, runNode_guidance, runNode_chat, spec_linear_pipeline]
  cases h1 : retrieve_memory_node env init with
  | error e => simp
  | ok u1 =>
      simp only [List.nil_append]
      cases h2 : prompt_guidance_node env (applyUpdate init u1) with
      | error e => simp
      | ok u2 =>
          simp only [List.nil_append]
          cases h3 : chat_by_llm1_node env (applyUpdate (applyUpdate init u1) u2) with
          | mk res w =>
              cases res with
              | error e => simp
              | ok u3 => simp

/-- Inversion: a successful retrieval node call reads the state's input,
gets a successful search, and returns exactly the update of lines 146–150. -/
theorem retrieve_ok_inv (env : Env) (s u : GraphState)
    (h : retrieve_memory_node env s = Except.ok u) :
    ∃ inp srs, s.input = some inp ∧ env.search inp = Except.ok srs ∧
      u = { input := some inp, retrieved_memory := some (normalizedMemory srs),
            llm1_prompt_instructions := some "", response := Option.none } := by
  unfold retrieve_memory_node at h
  split at h
  · cases h
  · next inp hi =>
      split at h
      · cases h
      · next srs hs =>
          cases h
          exact ⟨inp, srs, hi, hs, rfl⟩

/-- Inversion: a successful planning node call reads input and retrieved
memory, gets a successful LLM2 completion on the guidance prompt, and
returns exactly the update of lines 170–174. -/
theorem guidance_ok_inv (env : Env) (s u : GraphState)
    (h : prompt_guidance_node env s = Except.ok u) :
    ∃ inp mem r, s.input = some inp ∧ s.retrieved_memory = some mem ∧
      env.complete llm2 (guidancePrompt inp mem) = Except.ok r ∧
      u = { input := some inp, retrieved_memory := some mem,
            llm1_prompt_instructions := some r, response := Option.none } := by
  unfold prompt_guidance_node at h
  split at h
  · cases h
  · next inp hi =>
      split at h
      · cases h
      · next mem hm =>
          split at h
          · cases h
          · next r hc =>
              cases h
              exact ⟨inp, mem, r, hi, hm, hc, rfl⟩

/-- Inversion: a generation node call that returns successfully read all
three state fields, got a successful LLM1 completion, successfully created
the stored turn, and returned the update of lines 207–210 together with
exactly that one write. -/
theorem chat_ok_inv (env : Env) (s u : GraphState) (w : List String)
    (h : chat_by_llm1_node env s = (Except.ok u, w)) :
    ∃ instr mem inp resp,
      s.llm1_prompt_instructions = some instr ∧ s.retrieved_memory = some mem ∧
      s.input = some inp ∧
      env.complete llm1 (llm1Prompt instr mem inp) = Except.ok resp ∧
      env.create (storedTurn inp resp) = Except.ok () ∧
      u = { input := Option.none, retrieved_memory := Option.none,
            llm1_prompt_instructions := some instr, response := some resp } ∧
      w = [storedTurn inp resp] := by
  unfold chat_by_llm1_node at h
  split at h
  · simp at h
  · next instr hinstr =>
      split at h
      · simp at h
      · next mem hm =>
          split at h
          · simp at h
          · next inp hi =>
              split at h
              · simp at h
              · next resp hc =>
                  split at h
                  · simp at h
                  · next unitv hcr =>
                      simp only [Prod.mk.injEq] at h
                      obtain ⟨hu, hw⟩ := h
                      cases hu
                      exact ⟨instr, mem, inp, resp, hinstr, hm, hi, hc, by rw [hcr], rfl, hw.symm⟩

/-- A generation node call that raises performs no successful write. -/
theorem chat_error_writes (env : Env) (s : GraphState) (e : PyExn) (w : List String)
    (h : chat_by_llm1_node env s = (Except.error e, w)) : w = [] := by
  unfold chat_by_llm1_node at h
  split at h
  · simp at h; exact h.2
  · next instr hinstr =>
      split at h
      · simp at h; exact h.2
      · next mem hm =>
          split at h
          · simp at h; exact h.2
          · next inp hi =>
              split at h
              · simp at h; exact h.2
              · next resp hc =>
                  split at h
                  · simp at h; exact h.2
                  · next unitv hcr => simp at h

/-- String append is associative (at the level of the character data). -/
theorem str_append_assoc (a b c : String) : a ++ b ++ c = a ++ (b ++ c) :=
  congrArg String.mk (List.append_assoc a.data b.data c.data)

/-- The empty string is a right identity for append. -/
theorem str_append_empty (a : String) : a ++ "" = a :=
  congrArg String.mk (List.append_nil a.data)

/-- When either the planning stage or the generation stage can never return
successfully in a given environment, the whole run raises and no stored turn
is written. -/
theorem run_fails_general (env : Env) (inp : String)
    (hg : (∀ s u, prompt_guidance_node env s ≠ Except.ok u) ∨
          (∀ s u w, chat_by_llm1_node env s ≠ (Except.ok u, w))) :
    (∃ e2, (graphInvoke env (initState inp)).1 = Except.error e2) ∧
    (graphInvoke env (initState inp)).2 = [] := by
  rw [graphInvoke_eq_linear]
  cases h1 : retrieve_memory_node env (initState inp) with
  | error e2 =>
      unfold spec_linear_pipeline
      simp only [h1]
      exact ⟨⟨e2, rfl⟩, trivial⟩
  | ok u1 =>
      cases h2 : prompt_guidance_node env (applyUpdate (initState inp) u1) with
      | error e2 =>
          unfold spec_linear_pipeline
          simp only [h1, h2]
          exact ⟨⟨e2, rfl⟩, trivial⟩
      | ok u2 =>
          rcases hg with hgL | hgR
          · exact absurd h2 (hgL _ _)
          · cases h3 : chat_by_llm1_node env (applyUpdate (applyUpdate (initState inp) u1) u2) with
            | mk res w =>
                cases res with
                | error e3 =>
                    unfold spec_linear_pipeline
                    simp only [h1, h2, h3]
                    exact ⟨⟨e3, rfl⟩, chat_error_writes env _ e3 w h3⟩
                | ok u3 => exact absurd h3 (hgR _ _ _)

/-- When the pipeline run raises, the handler substitutes the fallback reply
and then faults with `NameError` at the display step (line 253). -/
theorem handle_of_run_error (env : Env) (inp : String) (e : PyExn)
    (h : (graphInvoke env (initState inp)).1 = Except.error e) :
    handle_user_input env inp =
      { reply := fallbackMessage, writes := (graphInvoke env (initState inp)).2,
        displayedInstructions := Option.none, handlerFault := some PyExn.nameError } := by
  unfold handle_user_input
  cases hg : graphInvoke env (initState inp) with
  | mk res w =>
      rw [hg] at h
      simp only at h
      rw [h]

/-! Concrete environments used by witnesses and counterexamples. -/

/-- A benign environment: empty search result, a fixed completion for every
prompt, a store that accepts every write. -/
def envEmptyOk : Env :=
  { search := fun _ => Except.ok [],
    complete := fun _ _ => Except.ok "了解しました。",
    create := fun _ => Except.ok () }

/-- Store returning the single bare string of Scenario C. -/
def envJazz : Env :=
  { envEmptyOk with search := fun _ => Except.ok [PyVal.str "User loves jazz"] }

/-- Completion provider that always raises. -/
def envProviderDown : Env :=
  { envEmptyOk with complete := fun _ _ => Except.error PyExn.providerFailure }

/-- Working search and provider, but a store whose create always raises. -/
def envCreateFails : Env :=
  { search := fun _ => Except.ok [],
    complete := fun _ _ => Except.ok "こんにちは！",
    create := fun _ => Except.error PyExn.storeUnavailable }

/-- Store whose search always raises. -/
def envSearchFails : Env :=
  { envEmptyOk with search := fun _ => Except.error PyExn.storeUnavailable }

/-! The claims. -/

/-- C1 counterexample: on the batch consisting of the single bare string
`"User loves jazz"`, the retrieval stage does NOT yield that string — the
comprehension's shape filter silently skips the non-dict item without
raising, the joined extraction is empty, and the stage substitutes the
sentinel. -/
theorem c1_counterexample_bare_string_yields_sentinel :
    retrieve_memory_node envJazz (initState "ジャズが好き") =
      Except.ok { input := some "ジャズが好き", retrieved_memory := some sentinel,
                  llm1_prompt_instructions := some "", response := Option.none } ∧
    sentinel ≠ "User loves jazz" := by
  exact ⟨rfl, by decide⟩

/-- C1 (amended): when the extraction of the nested content field actually
raises (`TypeError`/`KeyError`) on a non-empty batch, the stage falls back to
converting every item of the batch to its textual representation, uniformly.
But an item that merely fails the shape filter (e.g. a bare string) is
silently dropped without raising, so a batch of bare strings yields the
sentinel rather than the stringified items. -/
theorem c1_uniform_fallback (srs : List PyVal) (e : PyExn)
    (hne : srs ≠ []) (h : extractJoined srs = Except.error e) :
    memoryTextOf srs = String.intercalate "\n" (srs.map pyStr) := by
  cases srs with
  | nil => exact absurd rfl hne
  | cons a as =>
      unfold memoryTextOf
      rw [h]
      simp

theorem c1_uniform_fallback_witness :
    [PyVal.dict [("value", PyVal.int 5)]] ≠ ([] : List PyVal) ∧
    extractJoined [PyVal.dict [("value", PyVal.int 5)]] = Except.error PyExn.typeError ∧
    memoryTextOf [PyVal.dict [("value", PyVal.int 5)]] =
      String.intercalate "\n" ([PyVal.dict [("value", PyVal.int 5)]].map pyStr) :=
  ⟨List.cons_ne_nil _ _, rfl,
   c1_uniform_fallback [PyVal.dict [("value", PyVal.int 5)]] PyExn.typeError
     (List.cons_ne_nil _ _) rfl⟩

/-- C2: for every sequence of records returned by the store's search, the
retrieval stage returns successfully (never raises) with a non-empty
`retrieved_memory`; whenever the extracted text is empty it is exactly the
sentinel (the code's fixed Japanese equivalent of "no related memory
found"), never the empty string. -/
theorem c2_normalization_total (env : Env) (inp : String) (srs : List PyVal)
    (h : env.search inp = Except.ok srs) :
    retrieve_memory_node env (initState inp) =
      Except.ok { input := some inp, retrieved_memory := some (normalizedMemory srs),
                  llm1_prompt_instructions := some "", response := Option.none } ∧
    normalizedMemory srs ≠ "" ∧
    (memoryTextOf srs = "" → normalizedMemory srs = sentinel) := by
  refine ⟨?_, ?_, ?_⟩
  · simp [retrieve_memory_node, initState, h]
  · unfold normalizedMemory
    by_cases hm : memoryTextOf srs = ""
    · rw [if_pos hm]; decide
    · rw [if_neg hm]; exact hm
  · intro hm
    unfold normalizedMemory
    rw [if_pos hm]

theorem c2_witness :
    (retrieve_memory_node envEmptyOk (initState "こんにちは") =
      Except.ok { input := some "こんにちは", retrieved_memory := some (normalizedMemory []),
                  llm1_prompt_instructions := some "", response := Option.none }) ∧
    normalizedMemory ([] : List PyVal) ≠ "" ∧
    (memoryTextOf ([] : List PyVal) = "" → normalizedMemory ([] : List PyVal) = sentinel) :=
  c2_normalization_total envEmptyOk "こんにちは" [] rfl

/-- C9: the planning stage invokes the provider with a strictly lower
sampling temperature (0.3) than the generation stage (0.7). -/
theorem c9_planning_temperature_lt_generation :
    llm2.temperature < llm1.temperature := by
  norm_num [llm2, llm1]

/-- C3: when the completion provider raises during planning or during
generation, the chat handler surfaces the fixed fallback apology (not the
provider exception); and when it raises during generation, no stored turn
is written. -/
theorem c3_provider_failure_fallback (env : Env) (inp : String) (e : PyExn)
    (h : (∀ p, env.complete llm2 p = Except.error e) ∨
         (∀ p, env.complete llm1 p = Except.error e)) :
    (handle_user_input env inp).reply = fallbackMessage ∧
    ((∀ p, env.complete llm1 p = Except.error e) →
      (handle_user_input env inp).writes = []) := by
  have hfail : (∀ s u, prompt_guidance_node env s ≠ Except.ok u) ∨
      (∀ s u w, chat_by_llm1_node env s ≠ (Except.ok u, w)) := by
    rcases h with hL | hR
    · left
      intro s u hok
      obtain ⟨i2, m2, r2, _, _, hc, _⟩ := guidance_ok_inv env s u hok
      rw [hL] at hc
      cases hc
    · right
      intro s u w hok
      obtain ⟨instr, mem, i3, resp, _, _, _, hc1, _, _, _⟩ := chat_ok_inv env s u w hok
      rw [hR] at hc1
      cases hc1
  obtain ⟨⟨e2, hrun⟩, hw⟩ := run_fails_general env inp hfail
  rw [handle_of_run_error env inp e2 hrun]
  exact ⟨rfl, fun _ => hw⟩

theorem c3_witness :
    (handle_user_input envProviderDown "やあ").reply = fallbackMessage ∧
    ((∀ p, envProviderDown.complete llm1 p = Except.error PyExn.providerFailure) →
      (handle_user_input envProviderDown "やあ").writes = []) :=
  c3_provider_failure_fallback envProviderDown "やあ" PyExn.providerFailure
    (Or.inr (fun _ => rfl))

/-- C4: a generation-stage call that completes successfully writes exactly
one stored turn through the store's create operation, whose content is the
fixed template over the raw user input and the generated reply, so that both
occur verbatim (as contiguous substrings) in the stored content. -/
theorem c4_persistence_pairing (env : Env) (inp mem instr : String) (u : GraphState)
    (w : List String)
    (h : chat_by_llm1_node env
          { input := some inp, retrieved_memory := some mem,
            llm1_prompt_instructions := some instr, response := Option.none } =
        (Except.ok u, w)) :
    ∃ resp, u.response = some resp ∧
      w = [storedTurn inp resp] ∧
      (∃ pre post, storedTurn inp resp = pre ++ inp ++ post) ∧
      (∃ pre post, storedTurn inp resp = pre ++ resp ++ post) := by
  obtain ⟨instr2, mem2, inp2, resp, hinstr, hm, hi, hc, hcr, hu, hw⟩ :=
    chat_ok_inv env _ u w h
  simp only at hinstr hm hi
  obtain rfl : instr = instr2 := Option.some.inj hinstr
  obtain rfl : mem = mem2 := Option.some.inj hm
  obtain rfl : inp = inp2 := Option.some.inj hi
  refine ⟨resp, by rw [hu], hw, ⟨"ユーザー: ", "\nひびき: " ++ resp, ?_⟩,
    ⟨"ユーザー: " ++ inp ++ "\nひびき: ", "", ?_⟩⟩
  · unfold storedTurn
    rw [str_append_assoc]
  · rw [str_append_empty]
    rfl

theorem c4_witness :
    ∃ resp,
      (GraphState.mk Option.none Option.none (some "丁寧に")
        (some "了解しました。")).response = some resp ∧
      ["ユーザー: やあ\nひびき: 了解しました。"] = [storedTurn "やあ" resp] ∧
      (∃ pre post, storedTurn "やあ" resp = pre ++ "やあ" ++ post) ∧
      (∃ pre post, storedTurn "やあ" resp = pre ++ resp ++ post) :=
  c4_persistence_pairing envEmptyOk "やあ" "記憶" "丁寧に"
    (GraphState.mk Option.none Option.none (some "丁寧に") (some "了解しました。"))
    ["ユーザー: やあ\nひびき: 了解しました。"] rfl

/-- C5 counterexample: with a working provider but a store whose create
raises, the generation succeeds (the provider returns "こんにちは！") yet the
caller is shown the fallback apology instead of that generated reply — the
write failure throws past the generation stage and is treated as a stage
failure, contradicting the claim that the reply is still surfaced. -/
theorem c5_counterexample_reply_lost :
    envCreateFails.complete llm1
        (llm1Prompt "こんにちは！" sentinel "やあ") = Except.ok "こんにちは！" ∧
    (handle_user_input envCreateFails "やあ").reply = fallbackMessage ∧
    fallbackMessage ≠ "こんにちは！" :=
  ⟨rfl, rfl, by decide⟩

/-- C5 (amended): when the store's create operation fails after a successful
generation, the exception propagates uncaught out of the generation stage;
the run fails, the top-level handler substitutes the fixed fallback apology
(the generated reply is NOT surfaced), and no stored turn is recorded. -/
theorem c5_create_failure_loses_reply (env : Env) (inp : String) (e : PyExn)
    (hc : ∀ c, env.create c = Except.error e) :
    (handle_user_input env inp).reply = fallbackMessage ∧
    (handle_user_input env inp).writes = [] := by
  have hfail : (∀ s u, prompt_guidance_node env s ≠ Except.ok u) ∨
      (∀ s u w, chat_by_llm1_node env s ≠ (Except.ok u, w)) := by
    right
    intro s u w hok
    obtain ⟨instr, mem, i3, resp, _, _, _, _, hcr, _, _⟩ := chat_ok_inv env s u w hok
    rw [hc] at hcr
    cases hcr
  obtain ⟨⟨e2, hrun⟩, hw⟩ := run_fails_general env inp hfail
  rw [handle_of_run_error env inp e2 hrun]
  exact ⟨rfl, hw⟩

theorem c5_witness :
    (handle_user_input envCreateFails "こんばんは").reply = fallbackMessage ∧
    (handle_user_input envCreateFails "こんばんは").writes = [] :=
  c5_create_failure_loses_reply envCreateFails "こんばんは" PyExn.storeUnavailable
    (fun _ => rfl)

/-- C6 counterexample: when the store's search raises `StoreUnavailable`,
the retrieval node itself raises (it does not degrade to the sentinel), and
the turn ends with the fallback apology, which is not the sentinel. -/
theorem c6_counterexample_search_raises :
    retrieve_memory_node envSearchFails (initState "やあ") =
      Except.error PyExn.storeUnavailable ∧
    (handle_user_input envSearchFails "やあ").reply = fallbackMessage ∧
    fallbackMessage ≠ sentinel :=
  ⟨rfl, rfl, by decide⟩

/-- C6 (amended): a search failure during the memory retrieval stage
propagates out of `retrieve_memory_node` (the stage has no guard around the
search call), aborting the whole run; the handler then substitutes the
fallback apology — the sentinel degradation never happens. -/
theorem c6_search_failure_propagates (env : Env) (inp : String) (e : PyExn)
    (hs : ∀ q, env.search q = Except.error e) :
    retrieve_memory_node env (initState inp) = Except.error e ∧
    (handle_user_input env inp).reply = fallbackMessage := by
  have hret : retrieve_memory_node env (initState inp) = Except.error e := by
    unfold retrieve_memory_node initState
    simp [hs]
  refine ⟨hret, ?_⟩
  have hrun : (graphInvoke env (initState inp)).1 = Except.error e := by
    rw [graphInvoke_eq_linear]
    unfold spec_linear_pipeline
    rw [hret]
  rw [handle_of_run_error env inp e hrun]

theorem c6_witness :
    retrieve_memory_node envSearchFails (initState "こんばんは") =
      Except.error PyExn.storeUnavailable ∧
    (handle_user_input envSearchFails "こんばんは").reply = fallbackMessage :=
  c6_search_failure_propagates envSearchFails "こんばんは" PyExn.storeUnavailable
    (fun _ => rfl)

/-- C7: the compiled graph's execution order, derived from the entry point
and the edge list, is exactly retrieval → planning → generation with no
branching, retry, or skipped stage; every invocation equals the sequential
composition of the three stages; and any state the planning stage observes
carries exactly the `retrieved_memory` produced by this run's retrieval
stage from this run's search results. -/
theorem c7_stage_order :
    executionOrder = ["retrieve_memory", "prompt_guidance", "chat_by_llm1"] ∧
    (∀ (env : Env) (init : GraphState),
      graphInvoke env init = spec_linear_pipeline env init) ∧
    (∀ (env : Env) (inp : String) (s : GraphState),
      stateAfterRetrieval env inp = Except.ok s →
      ∃ srs, env.search inp = Except.ok srs ∧
        s.retrieved_memory = some (normalizedMemory srs)) := by
  refine ⟨rfl, graphInvoke_eq_linear, ?_⟩
  intro env inp s h
  unfold stateAfterRetrieval at h
  split at h
  · cases h
  · next u hu =>
      obtain ⟨inp2, srs, hi, hsrch, huv⟩ := retrieve_ok_inv env _ u hu
      cases h
      refine ⟨srs, ?_, ?_⟩
      · have hinp : inp = inp2 := by
          simp only [initState] at hi
          exact Option.some.inj hi
        rw [hinp]
        exact hsrch
      · rw [huv]
        rfl

theorem c7_witness :
    ∃ srs, envEmptyOk.search "やっほー" = Except.ok srs ∧
      (GraphState.mk (some "やっほー") (some (normalizedMemory []))
        (some "") Option.none).retrieved_memory = some (normalizedMemory srs) :=
  c7_stage_order.2.2 envEmptyOk "やっほー"
    (GraphState.mk (some "やっほー") (some (normalizedMemory [])) (some "") Option.none)
    rfl

/-- C8 counterexample: the retrieval stage does not only write the field it
owns — its returned update sets `llm1_prompt_instructions` (a field owned by
the planning stage) to the empty string, although that key was absent from
the incoming state; so the field is not passed through unchanged. -/
theorem c8_counterexample_retrieval_writes_planning_field :
    (initState "やあ").llm1_prompt_instructions = Option.none ∧
    retrieve_memory_node envEmptyOk (initState "やあ") =
      Except.ok { input := some "やあ", retrieved_memory := some sentinel,
                  llm1_prompt_instructions := some "", response := Option.none } ∧
    (some "" : Option String) ≠ Option.none :=
  ⟨rfl, rfl, by decide⟩

/-- C8 (amended): each stage writes its owned field and passes the others
through, with one exception — the retrieval stage additionally resets
`llm1_prompt_instructions` (owned by planning) to the empty string. In
detail: retrieval passes `input` through and omits `response`; planning
passes `input` and `retrieved_memory` through and omits `response`;
generation returns `llm1_prompt_instructions` unchanged and omits `input`
and `retrieved_memory` from its update, so they persist through the merge. -/
theorem c8_frame_conditions (env : Env) (s : GraphState) :
    (∀ u, retrieve_memory_node env s = Except.ok u →
        u.input = s.input ∧ u.llm1_prompt_instructions = some "" ∧
        u.response = Option.none) ∧
    (∀ u, prompt_guidance_node env s = Except.ok u →
        u.input = s.input ∧ u.retrieved_memory = s.retrieved_memory ∧
        u.response = Option.none) ∧
    (∀ u w, chat_by_llm1_node env s = (Except.ok u, w) →
        u.input = Option.none ∧ u.retrieved_memory = Option.none ∧
        u.llm1_prompt_instructions = s.llm1_prompt_instructions) := by
  refine ⟨?_, ?_, ?_⟩
  · intro u h
    obtain ⟨inp, srs, hi, _, hu⟩ := retrieve_ok_inv env s u h
    rw [hu, hi]
    exact ⟨rfl, rfl, rfl⟩
  · intro u h
    obtain ⟨inp, mem, r, hi, hm, _, hu⟩ := guidance_ok_inv env s u h
    rw [hu, hi, hm]
    exact ⟨rfl, rfl, rfl⟩
  · intro u w h
    obtain ⟨instr, mem, inp, resp, hinstr, _, _, _, _, hu, _⟩ := chat_ok_inv env s u w h
    rw [hu, hinstr]
    exact ⟨rfl, rfl, rfl⟩

theorem c8_witness :
    (GraphState.mk (some "やあ") (some sentinel) (some "") Option.none).input
        = (initState "やあ").input ∧
    (GraphState.mk (some "やあ") (some sentinel) (some "")
        Option.none).llm1_prompt_instructions = some "" ∧
    (GraphState.mk (some "やあ") (some sentinel) (some "") Option.none).response
        = Option.none :=
  (c8_frame_conditions envEmptyOk (initState "やあ")).1
    (GraphState.mk (some "やあ") (some sentinel) (some "") Option.none) rfl

/-- C10: whenever the pipeline invocation raises and the fallback reply is
substituted, the handler's display step reads the never-bound `result`
name, so the turn handler itself faults with `NameError` — after the
fallback reply was already surfaced. -/
theorem c10_handler_faults_after_fallback (env : Env) (inp : String) (e : PyExn)
    (h : (graphInvoke env (initState inp)).1 = Except.error e) :
    (handle_user_input env inp).reply = fallbackMessage ∧
    (handle_user_input env inp).handlerFault = some PyExn.nameError := by
  rw [handle_of_run_error env inp e h]
  exact ⟨rfl, rfl⟩

theorem c10_witness :
    (handle_user_input envProviderDown "ねえ").reply = fallbackMessage ∧
    (handle_user_input envProviderDown "ねえ").handlerFault = some PyExn.nameError :=
  c10_handler_faults_after_fallback envProviderDown "ねえ" PyExn.providerFailure rfl

end Hibiki
